import Mathlib

/-!
Shallow embedding of the toll-tracking core (`toll_logic.py` and the
location-update handler of `app.py`) together with proofs of its
specification properties.

Modelling conventions:
* Python strings are `List Char` (`Label`); Python floats are `Rat`;
  Python `round(x, 2)` is rational round-half-to-even at two decimals.
* External provider responses (reverse geocoding, distance matrix) are
  explicit data passed in, so the network-dependent functions become pure
  functions of the response.
* The database is a `List TollRecord`; the location-update endpoint becomes
  a step function from database plus sample plus provider responses to a
  new database and an outcome.
-/

/-- Python strings, modelled as lists of characters. -/
abbrev Label := List Char

/-- The whitespace characters removed by Python `str.strip()`. -/
def isPySpace (c : Char) : Bool :=
  c == ' ' || c == '\t' || c == '\n' || c == '\r' || c == '\x0b' || c == '\x0c'

/-- Python `str.strip()`: drop leading and trailing whitespace. -/
def pyStrip (s : Label) : Label :=
  ((s.dropWhile isPySpace).reverse.dropWhile isPySpace).reverse

/-- Whether `n` matches the front of `h` (helper for substring search). -/
def leadMatch : Label → Label → Bool
  | [], _ => true
  | _ :: _, [] => false
  | n :: ns, h :: hs => n == h && leadMatch ns hs

/-- Python `z in a` on strings: contiguous substring containment. -/
def containsSeq (z : Label) : Label → Bool
  | [] => leadMatch z []
  | h :: hs => leadMatch z (h :: hs) || containsSeq z hs

/-- Python `a or dflt` on an optional string: the default replaces both
`None` and the empty (falsy) string. -/
def pyOr (a : Option Label) (dflt : Label) : Label :=
  match a with
  | none => dflt
  | some s => if s.isEmpty then dflt else s

/-- The sentinel written when no address could be resolved
(`"Address Unavailable"` in `app.py`). -/
def addressUnavailable : Label := "Address Unavailable".data

/-- The provider success status string `"OK"`. -/
def statusOK : Label := "OK".data

/-- Round a rational to the nearest integer, ties to even
(the semantics of Python `round` at the integer level). The three branches
compare the fractional part `q - ⌊q⌋` with `1/2`, phrased as integer
comparisons on numerator and denominator so the function evaluates by
kernel reduction: `q - ⌊q⌋ < 1/2 ↔ 2*q.num < (2*⌊q⌋ + 1)*q.den`. -/
def roundHalfEven (q : Rat) : Int :=
  if 2 * q.num < (2 * q.floor + 1) * (q.den : Int) then q.floor
  else if 2 * q.num > (2 * q.floor + 1) * (q.den : Int) then q.floor + 1
  else if q.floor % 2 = 0 then q.floor else q.floor + 1

/-- Python `round(q, 2)`: round to two decimal places, ties to even. -/
def round2 (q : Rat) : Rat := (roundHalfEven (q * 100) : Rat) / 100

/-- `TOLL_RATE_PER_KM` from `toll_logic.py`. -/
def TOLL_RATE_PER_KM : Rat := 3

/-- `calculate_toll` from `toll_logic.py`: `None` or negative distance gives
`0.0`, otherwise `round(distance_km * TOLL_RATE_PER_KM, 2)`. -/
def calculate_toll (distance_km : Option Rat) : Rat :=
  match distance_km with
  | none => 0
  | some d => if d < 0 then 0 else round2 (d * TOLL_RATE_PER_KM)

/-- The error kinds `reverse_geocode` can report (each a truthy message
string in the source; only presence/absence is observable downstream). -/
inductive GeoError
  | serviceUnavailable
  | apiError
  | networkError
  | noAddressFound
  | formatError
deriving DecidableEq, Repr

/-- A reverse-geocoding provider interaction: an API exception, another
exception, or a list of candidate results, each with the value of its
`formatted_address` key (absent or falsy modelled as `none`/empty). -/
inductive GeoResp
  | apiExn
  | otherExn
  | results (rs : List (Option Label))
deriving DecidableEq, Repr

/-- `reverse_geocode` from `toll_logic.py`, as a function of the client
availability flag (`gmaps`) and the provider response. Returns the first
candidate's formatted address, stripped, or an error. -/
def reverse_geocode (gmapsOk : Bool) (resp : GeoResp) : Option Label × Option GeoError :=
  if !gmapsOk then (none, some .serviceUnavailable)
  else
    match resp with
    | .apiExn => (none, some .apiError)
    | .otherExn => (none, some .networkError)
    | .results [] => (none, some .noAddressFound)
    | .results (first :: _) =>
      match first with
      | some fa => if fa.isEmpty then (none, some .formatError) else (some (pyStrip fa), none)
      | none => (none, some .formatError)

/-- `is_in_toll_zone` from `toll_logic.py`: empty identifier set short-circuits
to `false`; a geocoding error or absent/empty address gives `false`; otherwise
the stripped address is tested for exact set membership and then, failing that,
for any non-empty identifier occurring as a substring of the address. -/
def is_in_toll_zone (S : List Label) (gmapsOk : Bool) (resp : GeoResp) : Bool :=
  if S.isEmpty then false
  else
    match reverse_geocode gmapsOk resp with
    | (_, some _) => false
    | (none, none) => false
    | (some address, none) =>
      if address.isEmpty then false
      else
        let stripped := pyStrip address
        if stripped ∈ S then true
        else S.any (fun zid => !zid.isEmpty && containsSeq zid stripped)

/-- A Python value passed as a coordinate argument to `calc_dist`: either a
well-formed 2-element pair of numbers, or anything else (wrong type or
length), which the function rejects. -/
inductive PyCoords
  | pair (lat lon : Rat)
  | malformed
deriving DecidableEq, Repr

/-- Whether the value is a well-formed coordinate pair (the
`isinstance`/`len == 2` validation in `calc_dist`). -/
def PyCoords.isPair : PyCoords → Bool
  | .pair _ _ => true
  | .malformed => false

/-- The JSON value under the element's `distance.value` key: a number, or
something non-numeric. -/
inductive PyNum
  | num (meters : Rat)
  | nonNumeric
deriving DecidableEq, Repr

/-- The dict under an element's `distance` key: the `value` entry may be
absent. -/
structure DistanceInfo where
  value : Option PyNum
deriving DecidableEq, Repr

/-- One origin-destination element of a distance-matrix response. `distance`
is `none` when the key is absent or its value falsy. -/
structure DMElement where
  status : Label
  distance : Option DistanceInfo
deriving DecidableEq, Repr

/-- One row of a distance-matrix response. -/
structure DMRow where
  elements : List DMElement
deriving DecidableEq, Repr

/-- A distance-matrix response: overall status plus rows. -/
structure DMResponse where
  status : Label
  rows : List DMRow
deriving DecidableEq, Repr

/-- `calc_dist` from `toll_logic.py`, as a function of the client
availability flag, the two coordinate arguments, and the provider
interaction (`none` models the call raising an exception). Returns
kilometers rounded to two decimals, or `none` on any failure. -/
def calc_dist (gmapsOk : Bool) (origin_coords destination_coords : PyCoords)
    (resp : Option DMResponse) : Option Rat :=
  if !gmapsOk then none
  else if !(origin_coords.isPair && destination_coords.isPair) then none
  else
    match resp with
    | none => none
    | some dm =>
      match dm.rows with
      | [] => none
      | row :: _ =>
        match row.elements with
        | [] => none
        | el :: _ =>
          if dm.status = statusOK ∧ el.status = statusOK then
            match el.distance with
            | none => none
            | some di =>
              match di.value with
              | none => none
              | some .nonNumeric => none
              | some (.num v) => some (round2 (v / 1000))
          else none

/-- The possible outcomes of one location-update call, as described by the
spec (`NoChange`, `Entered`, `Exited`, `ExitBlocked`). -/
inductive Outcome
  | entered
  | exited
  | exitBlocked
  | noChange
deriving DecidableEq, Repr

/-- The `TollRecord` model from `models.py` (payment fields included for
completeness; `entry_timestamp` is always set by the handler on creation). -/
structure TollRecord where
  id : Nat
  user_id : Nat
  entry_lat : Option Rat
  entry_lon : Option Rat
  entry_address : Option Label
  entry_timestamp : Nat
  exit_lat : Option Rat
  exit_lon : Option Rat
  exit_address : Option Label
  exit_timestamp : Option Nat
  distance_km : Option Rat
  amount_due : Option Rat
  paid : Bool
  payment_timestamp : Option Nat
  is_entry_only : Bool
deriving DecidableEq, Repr

/-- Module-level configuration of `toll_logic.py`: the loaded
`TOLL_ZONE_IDENTIFIERS` and whether the `gmaps` client initialized. -/
structure Config where
  identifiers : List Label
  gmapsOk : Bool
deriving DecidableEq, Repr

/-- The external-provider interactions consumed by one
`api_update_location` call: the geocoder response inside
`is_in_toll_zone`, the separate geocoder response for the entry/exit
address, and the distance-matrix interaction. -/
structure Env where
  zoneResp : GeoResp
  geoResp : GeoResp
  dmResp : Option DMResponse
deriving DecidableEq, Repr

/-- Select the latest record by `entry_timestamp` (the
`order_by(entry_timestamp.desc()).first()` of the query; tie order is
unspecified in the source and irrelevant to the proofs). -/
def pickLatest : List TollRecord → Option TollRecord
  | [] => none
  | r :: rs =>
    match pickLatest rs with
    | none => some r
    | some b => if b.entry_timestamp < r.entry_timestamp then some r else some b

/-- The `filter_by(user_id=..., is_entry_only=True)` condition of
`get_active_toll_entry`: the record is an open record of this user. -/
def openPred (user_id : Nat) (r : TollRecord) : Bool :=
  r.user_id == user_id && r.is_entry_only

/-- `get_active_toll_entry` from `app.py`: the most recent record of the
user with `is_entry_only = True`. -/
def get_active_toll_entry (db : List TollRecord) (user_id : Nat) : Option TollRecord :=
  pickLatest (db.filter (openPred user_id))

/-- The number of open records a user has in the database (the quantity the
at-most-one-open-record invariant bounds). -/
def openCount (db : List TollRecord) (user_id : Nat) : Nat :=
  db.countP (openPred user_id)

/-- Autoincremented primary key for a newly inserted record: larger than
every id already present. -/
def freshId (db : List TollRecord) : Nat :=
  (db.map TollRecord.id).foldr max 0 + 1

/-- The record created on zone entry by `api_update_location`
(`entry_address or "Address Unavailable"`; `paid`/`is_entry_only` defaults
from `models.py`). -/
def mkEntry (id user_id : Nat) (lat lon : Rat) (entry_address : Option Label)
    (ts : Nat) : TollRecord :=
  { id := id, user_id := user_id,
    entry_lat := some lat, entry_lon := some lon,
    entry_address := some (pyOr entry_address addressUnavailable),
    entry_timestamp := ts,
    exit_lat := none, exit_lon := none, exit_address := none,
    exit_timestamp := none, distance_km := none, amount_due := none,
    paid := false, payment_timestamp := none,
    is_entry_only := true }

/-- The in-place finalization of the open record on zone exit in
`api_update_location`: exit fields from the sample, distance `0.0` when the
estimator failed, amount from `calculate_toll`, `paid = False`,
`is_entry_only = False`. -/
def finalize (ae : TollRecord) (lat lon : Rat) (ts : Nat)
    (exit_address : Option Label) (distance_km : Option Rat) : TollRecord :=
  { ae with
    exit_lat := some lat, exit_lon := some lon,
    exit_address := some (pyOr exit_address addressUnavailable),
    exit_timestamp := some ts,
    distance_km := some (distance_km.getD 0),
    amount_due := some (calculate_toll distance_km),
    paid := false,
    is_entry_only := false }

/-- The toll-logic core of `api_update_location` from `app.py`: one location
sample for a user, against the current database and the provider
interactions of this call. Returns the new database and the outcome.
Email dispatch does not touch the database and is omitted. -/
def api_update_location (cfg : Config) (db : List TollRecord) (user_id : Nat)
    (lat lon : Rat) (ts : Nat) (env : Env) : List TollRecord × Outcome :=
  if is_in_toll_zone cfg.identifiers cfg.gmapsOk env.zoneResp
      && (get_active_toll_entry db user_id).isNone then
    (db ++ [mkEntry (freshId db) user_id lat lon
              (reverse_geocode cfg.gmapsOk env.geoResp).1 ts],
     Outcome.entered)
  else
    match get_active_toll_entry db user_id with
    | some ae =>
      if !(is_in_toll_zone cfg.identifiers cfg.gmapsOk env.zoneResp) then
        if ae.entry_lat.isNone || ae.entry_lon.isNone then
          (db, Outcome.exitBlocked)
        else
          (db.map (fun r =>
             if r.id == ae.id then
               finalize ae lat lon ts (reverse_geocode cfg.gmapsOk env.geoResp).1
                 (calc_dist cfg.gmapsOk
                   (PyCoords.pair (ae.entry_lat.getD 0) (ae.entry_lon.getD 0))
                   (PyCoords.pair lat lon) env.dmResp)
             else r),
           Outcome.exited)
      else (db, Outcome.noChange)
    | none => (db, Outcome.noChange)

-- quick sanity examples (removed assertions would fail to compile)
example : pyStrip "  Plaza A ".data = "Plaza A".data := by decide
example : containsSeq "Plaza".data "Sunset Plaza, Gate 2".data = true := by decide
example : containsSeq "Plza".data "Sunset Plaza".data = false := by decide
example : is_in_toll_zone ["Sunset Plaza".data] true (.results [some "  Sunset Plaza, Gate 2 ".data]) = true := by decide
example : is_in_toll_zone [] true (.results [some "Sunset Plaza".data]) = false := by decide
example : roundHalfEven (Rat.divInt 25 2) = 12 := by decide
example : roundHalfEven (Rat.divInt 27 2) = 14 := by decide
example : calculate_toll none = 0 := by decide
example : calculate_toll (some (-5)) = 0 := by decide

section SanityExamples

/-- A healthy open record used in the inline behaviour checks. -/
def exRecOpen : TollRecord :=
  { id := 3, user_id := 7, entry_lat := some 10, entry_lon := some 20,
    entry_address := some "Plaza A".data, entry_timestamp := 1,
    exit_lat := none, exit_lon := none, exit_address := none,
    exit_timestamp := none, distance_km := none, amount_due := none,
    paid := false, payment_timestamp := none, is_entry_only := true }

/-- An open record with a corrupted (absent) entry latitude. -/
def exRecCorrupt : TollRecord :=
  { exRecOpen with entry_lat := none }

example :
    (api_update_location ⟨["Plaza A".data], true⟩ [] 7 10 20 5
      ⟨.results [some "Plaza A".data], .results [some "Plaza A".data], none⟩).2
    = Outcome.entered := by decide

example :
    (api_update_location ⟨["Plaza A".data], true⟩ [] 7 10 20 5
      ⟨.results [some "Plaza A".data], .results [some "Plaza A".data], none⟩).1
    = [mkEntry 1 7 10 20 (some "Plaza A".data) 5] := by decide

-- corrupted open record and a not-in-zone sample: exit blocked, db unchanged
example :
    api_update_location ⟨["Plaza A".data], true⟩ [exRecCorrupt] 7 11 21 9
      ⟨.results [none], .results [some "Elsewhere".data], none⟩
    = ([exRecCorrupt], Outcome.exitBlocked) := by decide

-- healthy exit with estimator failure: closed with zeros
example :
    (api_update_location ⟨["Plaza A".data], true⟩ [exRecOpen] 7 11 21 9
      ⟨.apiExn, .results [], none⟩).1.map
        (fun r => (r.is_entry_only, r.distance_km, r.amount_due, r.exit_address))
    = [(false, some 0, some 0, some addressUnavailable)] := by decide

-- in-zone while inside: no-op
example :
    (api_update_location ⟨["Plaza A".data], true⟩ [exRecOpen] 7 11 21 9
      ⟨.results [some "Plaza A, Gate 2".data], .results [some "x".data], none⟩)
    = ([exRecOpen], Outcome.noChange) := by decide

end SanityExamples
/-! ### Helper lemmas: substring containment -/

theorem leadMatch_iff (n h : Label) : leadMatch n h = true ↔ ∃ rest, h = n ++ rest := by
  induction n generalizing h with
  | nil => simp [leadMatch]
  | cons c cs ih =>
    cases h with
    | nil =>
      simp [leadMatch]
    | cons d ds =>
      simp only [leadMatch, Bool.and_eq_true, beq_iff_eq, ih, List.cons_append,
        List.cons.injEq]
      constructor
      · rintro ⟨rfl, rest, rfl⟩
        exact ⟨rest, rfl, rfl⟩
      · rintro ⟨rest, rfl, rfl⟩
        exact ⟨rfl, rest, rfl⟩

theorem containsSeq_iff (z a : Label) :
    containsSeq z a = true ↔ ∃ pre post, a = pre ++ z ++ post := by
  induction a with
  | nil =>
    simp only [containsSeq, leadMatch_iff]
    constructor
    · rintro ⟨rest, hr⟩
      rcases List.append_eq_nil.mp hr.symm with ⟨rfl, rfl⟩
      exact ⟨[], [], rfl⟩
    · rintro ⟨pre, post, hp⟩
      rcases List.append_eq_nil.mp hp.symm with ⟨h1, rfl⟩
      rcases List.append_eq_nil.mp h1 with ⟨rfl, rfl⟩
      exact ⟨[], rfl⟩
  | cons h hs ih =>
    simp only [containsSeq, Bool.or_eq_true, leadMatch_iff, ih]
    constructor
    · rintro (⟨rest, hr⟩ | ⟨pre, post, rfl⟩)
      · exact ⟨[], rest, by simpa using hr⟩
      · exact ⟨h :: pre, post, by simp⟩
    · rintro ⟨pre, post, hp⟩
      cases pre with
      | nil => exact Or.inl ⟨post, by simpa using hp⟩
      | cons p ps =>
        right
        rcases List.cons.injEq .. ▸ hp with ⟨rfl, htail⟩
        exact ⟨ps, post, by simpa using htail⟩

/-! ### Helper lemmas: rounding -/

theorem ratFloor_eq_intFloor (q : Rat) : q.floor = ⌊q⌋ :=
  (Rat.floor_def' q).trans Rat.floor_def.symm

theorem two_mul_num_lt_iff (q : Rat) :
    (2 * q.num < (2 * ⌊q⌋ + 1) * (q.den : Int)) ↔ 2 * q < 2 * (⌊q⌋ : Rat) + 1 := by
  have hd : (0 : Rat) < (q.den : Rat) := by exact_mod_cast q.den_pos
  have hqd : (q.num : Rat) = q * (q.den : Rat) :=
    (div_eq_iff hd.ne').mp (Rat.num_div_den q)
  rw [← @Int.cast_lt Rat]
  push_cast [hqd]
  constructor <;> intro h <;> nlinarith [hd]

theorem two_mul_num_gt_iff (q : Rat) :
    (2 * q.num > (2 * ⌊q⌋ + 1) * (q.den : Int)) ↔ 2 * q > 2 * (⌊q⌋ : Rat) + 1 := by
  have hd : (0 : Rat) < (q.den : Rat) := by exact_mod_cast q.den_pos
  have hqd : (q.num : Rat) = q * (q.den : Rat) :=
    (div_eq_iff hd.ne').mp (Rat.num_div_den q)
  rw [gt_iff_lt, ← @Int.cast_lt Rat]
  push_cast [hqd]
  constructor <;> intro h <;> nlinarith [hd]

theorem roundHalfEven_le (q : Rat) : (roundHalfEven q : Rat) ≤ q + 1/2 := by
  unfold roundHalfEven
  rw [ratFloor_eq_intFloor]
  have hfl : ((⌊q⌋ : Int) : Rat) ≤ q := Int.floor_le q
  split
  · next h => linarith
  · split
    · next h1 h2 =>
      have := (two_mul_num_gt_iff q).mp h2
      push_cast
      linarith
    · next h1 h2 =>
      have hge : 2 * q ≥ 2 * (⌊q⌋ : Rat) + 1 := le_of_not_lt ((two_mul_num_lt_iff q).not.mp h1)
      have hle : 2 * q ≤ 2 * (⌊q⌋ : Rat) + 1 := le_of_not_lt ((two_mul_num_gt_iff q).not.mp h2)
      split
      · linarith
      · push_cast
        linarith

theorem le_roundHalfEven (q : Rat) : q - 1/2 ≤ (roundHalfEven q : Rat) := by
  unfold roundHalfEven
  rw [ratFloor_eq_intFloor]
  have hfl : q < (⌊q⌋ : Rat) + 1 := Int.lt_floor_add_one q
  split
  · next h =>
    have := (two_mul_num_lt_iff q).mp h
    linarith
  · split
    · next h1 h2 =>
      push_cast
      linarith
    · next h1 h2 =>
      have hle : 2 * q ≤ 2 * (⌊q⌋ : Rat) + 1 := le_of_not_lt ((two_mul_num_gt_iff q).not.mp h2)
      split
      · linarith
      · push_cast
        linarith

theorem roundHalfEven_mono {a b : Rat} (hab : a ≤ b) :
    roundHalfEven a ≤ roundHalfEven b := by
  by_contra hc
  push_neg at hc
  have h1 : (roundHalfEven a : Rat) ≤ a + 1/2 := roundHalfEven_le a
  have h2 : b - 1/2 ≤ (roundHalfEven b : Rat) := le_roundHalfEven b
  have h3 : (roundHalfEven b : Rat) + 1 ≤ (roundHalfEven a : Rat) := by
    exact_mod_cast Int.add_one_le_iff.mpr hc
  have hba : a = b := le_antisymm hab (by linarith)
  rw [hba] at hc
  exact lt_irrefl _ hc

theorem round2_mono {a b : Rat} (hab : a ≤ b) : round2 a ≤ round2 b := by
  unfold round2
  have : (roundHalfEven (a * 100) : Rat) ≤ (roundHalfEven (b * 100) : Rat) := by
    exact_mod_cast roundHalfEven_mono (by linarith : a * 100 ≤ b * 100)
  apply div_le_div_of_nonneg_right this (by norm_num)

/-! ### Helper lemmas: the active-record lookup and open-record counting -/

theorem pickLatest_isSome (r : TollRecord) (rs : List TollRecord) :
    (pickLatest (r :: rs)).isSome := by
  rw [pickLatest]
  cases pickLatest rs with
  | none => rfl
  | some b => by_cases hb : b.entry_timestamp < r.entry_timestamp <;> simp [hb]

theorem pickLatest_eq_none {l : List TollRecord} : pickLatest l = none ↔ l = [] := by
  cases l with
  | nil => simp [pickLatest]
  | cons r rs =>
    constructor
    · intro h
      have hs := pickLatest_isSome r rs
      rw [h] at hs
      simp at hs
    · intro h
      simp at h

theorem pickLatest_mem {l : List TollRecord} {x : TollRecord}
    (h : pickLatest l = some x) : x ∈ l := by
  induction l with
  | nil => simp [pickLatest] at h
  | cons r rs ih =>
    rw [pickLatest] at h
    cases hp : pickLatest rs with
    | none =>
      rw [hp] at h
      simp only [Option.some.injEq] at h
      simp [← h]
    | some b =>
      rw [hp] at h
      simp only at h
      split at h
      · simp only [Option.some.injEq] at h
        simp [← h]
      · simp only [Option.some.injEq] at h
        exact List.mem_cons_of_mem _ (ih (h ▸ hp))

theorem get_active_none_iff (db : List TollRecord) (u : Nat) :
    get_active_toll_entry db u = none ↔ db.filter (openPred u) = [] := by
  unfold get_active_toll_entry
  exact pickLatest_eq_none

theorem get_active_some_mem {db : List TollRecord} {u : Nat} {ae : TollRecord}
    (h : get_active_toll_entry db u = some ae) :
    ae ∈ db ∧ ae.user_id = u ∧ ae.is_entry_only = true := by
  have hm := pickLatest_mem h
  rw [List.mem_filter] at hm
  refine ⟨hm.1, ?_, ?_⟩
  · have := hm.2
    simp only [openPred, Bool.and_eq_true, beq_iff_eq] at this
    exact this.1
  · have := hm.2
    simp only [openPred, Bool.and_eq_true] at this
    exact this.2

theorem countP_le_of_map (f : TollRecord → TollRecord) (p : TollRecord → Bool)
    (hf : ∀ x, p (f x) = true → p x = true) (l : List TollRecord) :
    (l.map f).countP p ≤ l.countP p := by
  rw [List.countP_map]
  exact List.countP_mono_left (fun a _ hp => hf a hp)

/-! ### Claim theorems -/

/-- C7: `calculate_toll` is a pure, total function that never fails: absent
(`None`) and negative distances give `0.0`, and every distance `d ≥ 0` gives
`round(d * RATE_PER_KM, 2)` with `RATE_PER_KM` the fixed constant `3.0`. -/
theorem calculate_toll_spec :
    calculate_toll none = 0 ∧
    (∀ d : Rat, d < 0 → calculate_toll (some d) = 0) ∧
    (∀ d : Rat, 0 ≤ d → calculate_toll (some d) = round2 (d * TOLL_RATE_PER_KM)) ∧
    TOLL_RATE_PER_KM = 3 := by
  refine ⟨rfl, ?_, ?_, rfl⟩
  · intro d hd
    simp [calculate_toll, hd]
  · intro d hd
    simp [calculate_toll, not_lt.mpr hd]

/-- Witness for C7 at `d = -5` and `d = 5`. -/
theorem calculate_toll_spec_witness :
    calculate_toll (some (-5)) = 0 ∧
    calculate_toll (some 5) = round2 (5 * TOLL_RATE_PER_KM) :=
  ⟨calculate_toll_spec.2.1 (-5) (by decide),
   calculate_toll_spec.2.2.1 5 (by decide)⟩

/-- C8: fare monotonicity: for all distances `0 ≤ d1 < d2` the fare at `d1`
is at most the fare at `d2`, despite the 2-decimal rounding; and the fare at
`-5` and at absent distance both equal `0.0`. -/
theorem calculate_toll_mono :
    (∀ d1 d2 : Rat, 0 ≤ d1 → d1 < d2 →
      calculate_toll (some d1) ≤ calculate_toll (some d2)) ∧
    calculate_toll (some (-5)) = 0 ∧ calculate_toll none = 0 := by
  refine ⟨?_, by decide, rfl⟩
  intro d1 d2 h0 h12
  have h1 : ¬ d1 < 0 := not_lt.mpr h0
  have h2 : ¬ d2 < 0 := not_lt.mpr (le_trans h0 (le_of_lt h12))
  simp only [calculate_toll, if_neg h1, if_neg h2]
  apply round2_mono
  have h3 : (0 : Rat) ≤ TOLL_RATE_PER_KM := by rw [TOLL_RATE_PER_KM]; norm_num
  exact mul_le_mul_of_nonneg_right (le_of_lt h12) h3

/-- Witness for C8 at `d1 = 1`, `d2 = 2`. -/
theorem calculate_toll_mono_witness :
    calculate_toll (some 1) ≤ calculate_toll (some 2) :=
  calculate_toll_mono.1 1 2 (by decide) (by decide)

/-- The membership decision of `is_in_toll_zone` once an address has been
resolved, characterized: exact membership of the stripped address, or a
non-empty identifier occurring inside it; empty set and empty address give
`false`. -/
theorem zone_check_iff (S : List Label) (addr : Label) (hS : ∀ z ∈ S, z ≠ []) :
    ((if S.isEmpty = true then false
      else if addr.isEmpty = true then false
      else if pyStrip addr ∈ S then true
      else S.any fun zid => !zid.isEmpty && containsSeq zid (pyStrip addr)) = true)
    ↔ (pyStrip addr ∈ S ∨
        ∃ z ∈ S, z ≠ [] ∧ ∃ pre post, pyStrip addr = pre ++ z ++ post) := by
  by_cases hSe : S.isEmpty = true
  · have : S = [] := List.isEmpty_iff.mp hSe
    subst this
    simp
  · by_cases haddr : addr.isEmpty = true
    · have : addr = [] := List.isEmpty_iff.mp haddr
      subst this
      rw [if_neg hSe, if_pos haddr]
      simp only [Bool.false_eq_true, false_iff]
      rintro (hmem | ⟨z, hz, hzne, pre, post, heq⟩)
      · exact hS [] hmem rfl
      · rcases List.append_eq_nil.mp heq.symm with ⟨h1, -⟩
        rcases List.append_eq_nil.mp h1 with ⟨-, rfl⟩
        exact hzne rfl
    · rw [if_neg hSe, if_neg haddr]
      by_cases hmem : pyStrip addr ∈ S
      · simp [hmem]
      · rw [if_neg hmem, List.any_eq_true]
        constructor
        · rintro ⟨z, hz, hzb⟩
          rw [Bool.and_eq_true] at hzb
          obtain ⟨hz1, hz2⟩ := hzb
          refine Or.inr ⟨z, hz, ?_, (containsSeq_iff _ _).mp hz2⟩
          intro hzn
          subst hzn
          simp at hz1
        · rintro (h | ⟨z, hz, hzne, hsub⟩)
          · exact absurd h hmem
          · refine ⟨z, hz, ?_⟩
            rw [Bool.and_eq_true]
            refine ⟨?_, (containsSeq_iff _ _).mpr hsub⟩
            simpa using hzne

/-- C2: for a reference set with no empty member (as the loader guarantees),
`is_in_toll_zone` reports `true` iff reverse geocoding succeeds with a label
whose stripped form exactly equals a member of the set or, failing that, has
some non-empty member as a contiguous substring; every failure (resolver
error, absent label) and the empty set give `false`. -/
theorem is_in_toll_zone_spec (S : List Label) (g : Bool) (resp : GeoResp)
    (hS : ∀ z ∈ S, z ≠ []) :
    is_in_toll_zone S g resp = true ↔
      ∃ L, reverse_geocode g resp = (some L, none) ∧
        (pyStrip L ∈ S ∨
          ∃ z ∈ S, z ≠ [] ∧ ∃ pre post, pyStrip L = pre ++ z ++ post) := by
  unfold is_in_toll_zone
  rcases hrg : reverse_geocode g resp with ⟨a, e⟩
  cases e with
  | some err => simp
  | none =>
    cases a with
    | none => simp
    | some addr =>
      constructor
      · intro h
        exact ⟨addr, rfl, (zone_check_iff S addr hS).mp h⟩
      · rintro ⟨L, hL, hP⟩
        have hLa : addr = L := by
          have := congrArg Prod.fst hL
          simpa using this
        subst hLa
        exact (zone_check_iff S addr hS).mpr hP

/-- Witness for C2 at a concrete set and response exercising the substring
fallback. -/
theorem is_in_toll_zone_spec_witness :
    is_in_toll_zone ["Sunset Plaza".data] true
        (.results [some "Sunset Plaza, Gate 2".data]) = true ↔
      ∃ L, reverse_geocode true (.results [some "Sunset Plaza, Gate 2".data])
          = (some L, none) ∧
        (pyStrip L ∈ ["Sunset Plaza".data] ∨
          ∃ z ∈ ["Sunset Plaza".data], z ≠ [] ∧
            ∃ pre post, pyStrip L = pre ++ z ++ post) :=
  is_in_toll_zone_spec _ _ _ (by decide)

/-- C6: `calc_dist` returns a distance iff the overall response status and
the single element's status are both `OK` and the element carries a numeric
distance value; on success the result is meters divided by 1000 rounded to
two decimals; in every other case (client unavailable, malformed input pair,
transport error, missing rows/elements, missing or non-numeric distance) it
returns absent. -/
theorem calc_dist_spec (g : Bool) (o d : PyCoords) (resp : Option DMResponse) :
    ((calc_dist g o d resp).isSome = true ↔
      g = true ∧ o.isPair = true ∧ d.isPair = true ∧
      ∃ dm row el v, resp = some dm ∧ dm.rows.head? = some row ∧
        row.elements.head? = some el ∧ dm.status = statusOK ∧
        el.status = statusOK ∧
        el.distance.bind DistanceInfo.value = some (PyNum.num v)) ∧
    (∀ dm row el v, resp = some dm → dm.rows.head? = some row →
      row.elements.head? = some el → g = true → o.isPair = true →
      d.isPair = true → dm.status = statusOK → el.status = statusOK →
      el.distance.bind DistanceInfo.value = some (PyNum.num v) →
      calc_dist g o d resp = some (round2 (v / 1000))) := by
  constructor
  · cases g with
    | false => simp [calc_dist]
    | true =>
      cases o with
      | malformed => simp [calc_dist, PyCoords.isPair]
      | pair olat olon =>
        cases d with
        | malformed => simp [calc_dist, PyCoords.isPair]
        | pair dlat dlon =>
          cases resp with
          | none => simp [calc_dist]
          | some dm =>
            obtain ⟨st, rows⟩ := dm
            cases rows with
            | nil => simp [calc_dist]
            | cons row rest =>
              obtain ⟨els⟩ := row
              cases els with
              | nil => simp [calc_dist]
              | cons el erest =>
                by_cases hst : st = statusOK ∧ el.status = statusOK
                · cases hd : el.distance with
                  | none => simp [calc_dist, PyCoords.isPair, hst, hd]
                  | some di =>
                    cases hv : di.value with
                    | none => simp [calc_dist, PyCoords.isPair, hst, hd, hv]
                    | some pv =>
                      cases pv with
                      | nonNumeric =>
                        simp [calc_dist, PyCoords.isPair, hst, hd, hv]
                      | num v =>
                        simp [calc_dist, PyCoords.isPair, hst, hd, hv]
                · simp only [calc_dist, PyCoords.isPair, Bool.and_self,
                    Bool.not_true, Bool.false_eq_true, if_false, if_neg hst]
                  simp only [Option.isSome_none, Bool.false_eq_true, false_iff]
                  rintro ⟨-, -, -, dm', row', el', v', hdm, hrow, hel, h1, h2, -⟩
                  apply hst
                  simp only [Option.some.injEq] at hdm hrow hel
                  constructor
                  · have : dm'.status = st := by rw [← hdm]
                    rw [← this, h1]
                  · have hr : row' = ⟨el :: erest⟩ := by
                      rw [← hdm] at hrow
                      simpa using hrow.symm
                    have he : el' = el := by
                      rw [hr] at hel
                      simpa using hel.symm
                    rw [← he, h2]
  · intro dm row el v hdm hrow hel hg ho hd hst1 hst2 hval
    subst hg hdm
    cases o with
    | malformed => simp [PyCoords.isPair] at ho
    | pair olat olon =>
      cases d with
      | malformed => simp [PyCoords.isPair] at hd
      | pair dlat dlon =>
        obtain ⟨st, rows⟩ := dm
        cases rows with
        | nil => simp at hrow
        | cons row0 rest =>
          have hr0 : row0 = row := by simpa using hrow
          subst hr0
          obtain ⟨els⟩ := row0
          cases els with
          | nil => simp at hel
          | cons el0 erest =>
            have he0 : el0 = el := by simpa using hel
            subst he0
            cases hdist : el0.distance with
            | none => rw [hdist] at hval; simp at hval
            | some di =>
              rw [hdist] at hval
              simp only [Option.some_bind] at hval
              cases hv : di.value with
              | none => rw [hv] at hval; simp at hval
              | some pv =>
                rw [hv] at hval
                cases pv with
                | nonNumeric => simp at hval
                | num w =>
                  simp only [Option.some.injEq, PyNum.num.injEq] at hval
                  subst hval
                  simp only [calc_dist, PyCoords.isPair, Bool.and_self,
                    Bool.not_true, Bool.false_eq_true, if_false]
                  simp only [List.head?_cons, Option.some.injEq] at hst1
                  simp [hst1, hst2, hdist, hv]

/-- Witness for C6: a fully successful provider interaction. -/
theorem calc_dist_spec_witness :
    calc_dist true (PyCoords.pair 0 0) (PyCoords.pair 1 1)
        (some ⟨statusOK, [⟨[⟨statusOK, some ⟨some (PyNum.num 12345)⟩⟩]⟩]⟩)
      = some (round2 (12345 / 1000)) :=
  (calc_dist_spec true (PyCoords.pair 0 0) (PyCoords.pair 1 1) _).2
    _ _ _ _ rfl rfl rfl rfl rfl rfl rfl rfl rfl

/-- C9: idempotence of in-zone samples while inside: with an open record
present and an in-zone classification, the handler is a no-op — the database
is returned unchanged (so no second record is created and no field of the
open record is mutated), with outcome `noChange`. -/
theorem noop_when_inside_in_zone (cfg : Config) (db : List TollRecord)
    (user_id : Nat) (lat lon : Rat) (ts : Nat) (env : Env) (ae : TollRecord)
    (hactive : get_active_toll_entry db user_id = some ae)
    (hzone : is_in_toll_zone cfg.identifiers cfg.gmapsOk env.zoneResp = true) :
    api_update_location cfg db user_id lat lon ts env = (db, Outcome.noChange) := by
  unfold api_update_location
  rw [hzone, hactive]
  simp

/-- Witness for C9. -/
theorem noop_when_inside_in_zone_witness :
    api_update_location ⟨["Plaza A".data], true⟩ [exRecOpen] 7 11 21 9
        ⟨.results [some "Plaza A".data], .results [some "x".data], none⟩
      = ([exRecOpen], Outcome.noChange) :=
  noop_when_inside_in_zone _ _ _ _ _ _ _ exRecOpen (by decide) (by decide)

/-- C4: with an open record whose stored entry latitude or longitude is
absent and a not-in-zone sample, the handler aborts finalization: outcome
`exitBlocked`, database unchanged (the record stays open and no exit,
distance or amount field is written). -/
theorem exit_blocked_on_corrupt_entry (cfg : Config) (db : List TollRecord)
    (user_id : Nat) (lat lon : Rat) (ts : Nat) (env : Env) (ae : TollRecord)
    (hactive : get_active_toll_entry db user_id = some ae)
    (hzone : is_in_toll_zone cfg.identifiers cfg.gmapsOk env.zoneResp = false)
    (hcorrupt : ae.entry_lat = none ∨ ae.entry_lon = none) :
    api_update_location cfg db user_id lat lon ts env = (db, Outcome.exitBlocked) ∧
    ae ∈ db ∧ ae.is_entry_only = true := by
  refine ⟨?_, (get_active_some_mem hactive).1, (get_active_some_mem hactive).2.2⟩
  unfold api_update_location
  rw [hzone, hactive]
  have hc : (ae.entry_lat.isNone || ae.entry_lon.isNone) = true := by
    rcases hcorrupt with h | h <;> simp [h]
  simp [hc]

/-- Witness for C4. -/
theorem exit_blocked_on_corrupt_entry_witness :
    api_update_location ⟨["Plaza A".data], true⟩ [exRecCorrupt] 7 11 21 9
        ⟨.results [none], .results [some "Elsewhere".data], none⟩
      = ([exRecCorrupt], Outcome.exitBlocked) ∧
    exRecCorrupt ∈ [exRecCorrupt] ∧ exRecCorrupt.is_entry_only = true :=
  exit_blocked_on_corrupt_entry _ _ _ _ _ _ _ exRecCorrupt (by decide) (by decide)
    (Or.inl (by decide))

/-- C3 (amended): with no open record and an in-zone classification, the
handler creates exactly one new record, appended to the database, whose
entry coordinates and timestamp come from the sample, which is open, and
whose entry label is the resolved label when that label is non-empty and the
sentinel `"Address Unavailable"` when resolution failed or the resolved
label is empty; the outcome is `entered`. -/
theorem entered_creates_record (cfg : Config) (db : List TollRecord)
    (user_id : Nat) (lat lon : Rat) (ts : Nat) (env : Env)
    (hactive : get_active_toll_entry db user_id = none)
    (hzone : is_in_toll_zone cfg.identifiers cfg.gmapsOk env.zoneResp = true) :
    ∃ rec, api_update_location cfg db user_id lat lon ts env
        = (db ++ [rec], Outcome.entered) ∧
      rec.user_id = user_id ∧ rec.entry_lat = some lat ∧
      rec.entry_lon = some lon ∧ rec.entry_timestamp = ts ∧
      rec.is_entry_only = true ∧
      rec.entry_address
        = some (pyOr (reverse_geocode cfg.gmapsOk env.geoResp).1 addressUnavailable) ∧
      rec.exit_lat = none ∧ rec.exit_lon = none ∧ rec.exit_address = none ∧
      rec.exit_timestamp = none ∧ rec.distance_km = none ∧
      rec.amount_due = none ∧ rec.paid = false := by
  refine ⟨mkEntry (freshId db) user_id lat lon
    (reverse_geocode cfg.gmapsOk env.geoResp).1 ts, ?_,
    rfl, rfl, rfl, rfl, rfl, rfl, rfl, rfl, rfl, rfl, rfl, rfl, rfl⟩
  unfold api_update_location
  rw [hzone, hactive]
  simp

/-- Witness for C3 (amended). -/
theorem entered_creates_record_witness :
    ∃ rec, api_update_location ⟨["Plaza A".data], true⟩ [] 7 10 20 5
        ⟨.results [some "Plaza A".data], .results [some "Plaza A".data], none⟩
        = ([] ++ [rec], Outcome.entered) ∧
      rec.user_id = 7 ∧ rec.entry_lat = some 10 ∧
      rec.entry_lon = some 20 ∧ rec.entry_timestamp = 5 ∧
      rec.is_entry_only = true ∧
      rec.entry_address
        = some (pyOr (reverse_geocode true (.results [some "Plaza A".data])).1
                  addressUnavailable) ∧
      rec.exit_lat = none ∧ rec.exit_lon = none ∧ rec.exit_address = none ∧
      rec.exit_timestamp = none ∧ rec.distance_km = none ∧
      rec.amount_due = none ∧ rec.paid = false :=
  entered_creates_record _ _ _ _ _ _ _ (by decide) (by decide)

/-- Counterexample to C3 as stated: when reverse geocoding *succeeds* with
the empty label (a whitespace-only formatted address), the created record's
entry label is the sentinel `"Address Unavailable"`, not the resolved
label — so "the entry label equals the resolved label, or the sentinel if
resolution failed" is violated on a success with an empty label. -/
theorem entered_creates_record_counterexample :
    reverse_geocode true (GeoResp.results [some " ".data]) = (some [], none) ∧
    is_in_toll_zone ["Plaza A".data] true (.results [some "Plaza A".data]) = true ∧
    get_active_toll_entry [] 7 = none ∧
    (api_update_location ⟨["Plaza A".data], true⟩ [] 7 10 20 5
        ⟨.results [some "Plaza A".data], .results [some " ".data], none⟩).1.map
        TollRecord.entry_address = [some addressUnavailable] ∧
    some addressUnavailable ≠ some ([] : Label) := by
  refine ⟨by decide, by decide, by decide, by decide, by decide⟩

/-- C5: with an open record holding valid entry coordinates, a not-in-zone
sample, and a failing distance estimator, finalization still completes: the
open record is closed (`is_entry_only = false`) with `distance_km = 0.0` and
`amount_due = 0.0`, and the outcome is `exited`. -/
theorem exited_on_estimator_failure (cfg : Config) (db : List TollRecord)
    (user_id : Nat) (lat lon : Rat) (ts : Nat) (env : Env) (ae : TollRecord)
    (elat elon : Rat)
    (hactive : get_active_toll_entry db user_id = some ae)
    (hlat : ae.entry_lat = some elat) (hlon : ae.entry_lon = some elon)
    (hzone : is_in_toll_zone cfg.identifiers cfg.gmapsOk env.zoneResp = false)
    (hdist : calc_dist cfg.gmapsOk (PyCoords.pair elat elon)
        (PyCoords.pair lat lon) env.dmResp = none) :
    api_update_location cfg db user_id lat lon ts env
      = (db.map (fun r =>
          if r.id == ae.id then
            finalize ae lat lon ts (reverse_geocode cfg.gmapsOk env.geoResp).1 none
          else r),
        Outcome.exited) ∧
    (finalize ae lat lon ts (reverse_geocode cfg.gmapsOk env.geoResp).1
        none).is_entry_only = false ∧
    (finalize ae lat lon ts (reverse_geocode cfg.gmapsOk env.geoResp).1
        none).distance_km = some 0 ∧
    (finalize ae lat lon ts (reverse_geocode cfg.gmapsOk env.geoResp).1
        none).amount_due = some 0 := by
  refine ⟨?_, rfl, rfl, rfl⟩
  unfold api_update_location
  rw [hzone, hactive]
  simp [hlat, hlon, hdist]

/-- Witness for C5: estimator fails by a transport exception. -/
theorem exited_on_estimator_failure_witness :
    api_update_location ⟨["Plaza A".data], true⟩ [exRecOpen] 7 11 21 9
        ⟨.apiExn, .results [], none⟩
      = ([exRecOpen].map (fun r =>
          if r.id == exRecOpen.id then
            finalize exRecOpen 11 21 9 (reverse_geocode true (.results [])).1 none
          else r),
        Outcome.exited) ∧
    (finalize exRecOpen 11 21 9 (reverse_geocode true (.results [])).1
        none).is_entry_only = false ∧
    (finalize exRecOpen 11 21 9 (reverse_geocode true (.results [])).1
        none).distance_km = some 0 ∧
    (finalize exRecOpen 11 21 9 (reverse_geocode true (.results [])).1
        none).amount_due = some 0 :=
  exited_on_estimator_failure _ _ _ _ _ _ _ exRecOpen 10 20 (by decide)
    (by decide) (by decide) (by decide) (by decide)

/-- C10 (implicit): a failure of the exit-side reverse geocoding (error or
absent label) does not block finalization: the record is closed with exit
label `"Address Unavailable"`, exit coordinates and timestamp from the
sample, and distance and amount computed as usual. -/
theorem exit_sentinel_on_geocode_failure (cfg : Config) (db : List TollRecord)
    (user_id : Nat) (lat lon : Rat) (ts : Nat) (env : Env) (ae : TollRecord)
    (elat elon : Rat)
    (hactive : get_active_toll_entry db user_id = some ae)
    (hlat : ae.entry_lat = some elat) (hlon : ae.entry_lon = some elon)
    (hzone : is_in_toll_zone cfg.identifiers cfg.gmapsOk env.zoneResp = false)
    (hgeo : (reverse_geocode cfg.gmapsOk env.geoResp).1 = none) :
    api_update_location cfg db user_id lat lon ts env
      = (db.map (fun r =>
          if r.id == ae.id then
            finalize ae lat lon ts none
              (calc_dist cfg.gmapsOk (PyCoords.pair elat elon)
                (PyCoords.pair lat lon) env.dmResp)
          else r),
        Outcome.exited) ∧
    ∀ dist : Option Rat,
      (finalize ae lat lon ts none dist).exit_address = some addressUnavailable ∧
      (finalize ae lat lon ts none dist).exit_lat = some lat ∧
      (finalize ae lat lon ts none dist).exit_lon = some lon ∧
      (finalize ae lat lon ts none dist).exit_timestamp = some ts ∧
      (finalize ae lat lon ts none dist).distance_km = some (dist.getD 0) ∧
      (finalize ae lat lon ts none dist).amount_due
        = some (calculate_toll dist) ∧
      (finalize ae lat lon ts none dist).is_entry_only = false := by
  refine ⟨?_, fun dist => ⟨rfl, rfl, rfl, rfl, rfl, rfl, rfl⟩⟩
  unfold api_update_location
  rw [hzone, hactive]
  simp [hlat, hlon, hgeo]

/-- Witness for C10. -/
theorem exit_sentinel_on_geocode_failure_witness :
    api_update_location ⟨["Plaza A".data], true⟩ [exRecOpen] 7 11 21 9
        ⟨.apiExn, .results [], none⟩
      = ([exRecOpen].map (fun r =>
          if r.id == exRecOpen.id then
            finalize exRecOpen 11 21 9 none
              (calc_dist true (PyCoords.pair 10 20) (PyCoords.pair 11 21) none)
          else r),
        Outcome.exited) ∧
    ∀ dist : Option Rat,
      (finalize exRecOpen 11 21 9 none dist).exit_address
        = some addressUnavailable ∧
      (finalize exRecOpen 11 21 9 none dist).exit_lat = some 11 ∧
      (finalize exRecOpen 11 21 9 none dist).exit_lon = some 21 ∧
      (finalize exRecOpen 11 21 9 none dist).exit_timestamp = some 9 ∧
      (finalize exRecOpen 11 21 9 none dist).distance_km = some (dist.getD 0) ∧
      (finalize exRecOpen 11 21 9 none dist).amount_due
        = some (calculate_toll dist) ∧
      (finalize exRecOpen 11 21 9 none dist).is_entry_only = false :=
  exit_sentinel_on_geocode_failure _ _ _ _ _ _ _ exRecOpen 10 20 (by decide)
    (by decide) (by decide) (by decide) (by decide)

/-- C1: each `api_update_location` call preserves the per-subject invariant
that at most one record is open: a new open record is created only when the
lookup finds no open record for the subject, and exit closes the open
record; the bound holds for every user after the call if it held before. -/
theorem toll_open_invariant_preserved (cfg : Config) (db : List TollRecord)
    (user_id : Nat) (lat lon : Rat) (ts : Nat) (env : Env) (u : Nat)
    (h : openCount db u ≤ 1) :
    openCount (api_update_location cfg db user_id lat lon ts env).1 u ≤ 1 := by
  unfold api_update_location
  split
  · -- entry branch
    next hcond =>
      rw [Bool.and_eq_true] at hcond
      have hnone : get_active_toll_entry db user_id = none :=
        Option.isNone_iff_eq_none.mp hcond.2
      have hfil : db.filter (openPred user_id) = [] :=
        (get_active_none_iff db user_id).mp hnone
      show openCount (db ++ [mkEntry (freshId db) user_id lat lon
        (reverse_geocode cfg.gmapsOk env.geoResp).1 ts]) u ≤ 1
      unfold openCount
      rw [List.countP_append]
      by_cases hu : u = user_id
      · subst hu
        have h0 : db.countP (openPred u) = 0 := by
          rw [List.countP_eq_length_filter, hfil]
          rfl
        rw [h0]
        simp [List.countP_cons, openPred, mkEntry]
      · have hp : openPred u (mkEntry (freshId db) user_id lat lon
            (reverse_geocode cfg.gmapsOk env.geoResp).1 ts) = false := by
          simp only [openPred, mkEntry, Bool.and_eq_true, beq_iff_eq]
          simp only [Bool.and_eq_false_iff]
          left
          simp only [beq_eq_false_iff_ne, ne_eq]
          exact fun hc => hu hc.symm
        have hone : List.countP (openPred u) [mkEntry (freshId db) user_id lat
            lon (reverse_geocode cfg.gmapsOk env.geoResp).1 ts] = 0 := by
          simp [List.countP_cons, hp]
        rw [hone]
        simpa using h
  · -- non-entry branches
    split
    · -- an open record exists
      next ae heq =>
        split
        · -- not in zone: exit path
          split
          · -- corrupted entry coordinates: blocked, db unchanged
            exact h
          · -- finalize: one record closed
            show openCount (db.map _) u ≤ 1
            refine le_trans ?_ h
            unfold openCount
            apply countP_le_of_map
            intro x hx
            by_cases hid : (x.id == ae.id) = true
            · rw [if_pos hid] at hx
              exfalso
              simp [openPred, finalize] at hx
            · rw [if_neg hid] at hx
              exact hx
        · -- in zone while inside: no-op
          exact h
    · -- no open record and not entering: no-op
      exact h

/-- Witness for C1. -/
theorem toll_open_invariant_preserved_witness :
    openCount (api_update_location ⟨["Plaza A".data], true⟩ [] 7 10 20 5
      ⟨.results [some "Plaza A".data], .results [some "Plaza A".data],
        none⟩).1 7 ≤ 1 :=
  toll_open_invariant_preserved _ _ _ _ _ _ _ 7 (by decide)
